import Mathlib

/-!
Verification development for the AutoBalloon dimension-detection core
(`backend/services/detection_service.py` and its collaborators).

The Python services are shallowly embedded: pure functions become Lean
functions over `ℚ` / `ℤ` / `String`; Python float arithmetic is modeled by
exact rational arithmetic; Python `int()` truncation and `//` floor division
are modeled explicitly.  Object identity (Python `id()`), used by the fusion
matcher's `used_ocr_ids` set, is modeled by an explicit `SpanId` tag carried
by each span: distinct Python objects carry distinct tags, and the one place
where two views share an object (a singleton OCR group is the raw span
itself) shares the tag.
-/

namespace AutoBalloon

set_option maxRecDepth 40000

/-- Floor of a rational, computed directly on its reduced fraction (the
denominator is positive, so floor division of numerator by denominator is
the floor). -/
def ratFloor (q : ℚ) : ℤ := q.num.fdiv (q.den : ℤ)

/-- Python `int()` applied to a real value: truncation toward zero. -/
def pyInt (q : ℚ) : ℤ := if 0 ≤ q then ratFloor q else -(ratFloor (-q))

/-- Python `str.strip` / `str.split` whitespace set. -/
def pyIsSpace (c : Char) : Bool :=
  c == ' ' || c == Char.ofNat 9 || c == Char.ofNat 10 || c == Char.ofNat 13 ||
  c == Char.ofNat 11 || c == Char.ofNat 12

/-- Strip leading and trailing whitespace from a character list. -/
def pyStripL (l : List Char) : List Char :=
  ((l.dropWhile pyIsSpace).reverse.dropWhile pyIsSpace).reverse

/-- Python `str.strip()`. -/
def pyStrip (s : String) : String := ⟨pyStripL s.data⟩

/-- Helper for `pySplit`: accumulate the current word (reversed in `acc`). -/
def pySplitAux : List Char → List Char → List String
  | [], acc => if acc.isEmpty then [] else [⟨acc.reverse⟩]
  | c :: cs, acc =>
    if pyIsSpace c then
      if acc.isEmpty then pySplitAux cs [] else ⟨acc.reverse⟩ :: pySplitAux cs []
    else pySplitAux cs (c :: acc)

/-- Python `str.split()` with no argument: split on whitespace runs, dropping empties. -/
def pySplit (s : String) : List String := pySplitAux s.data []

/-- Python `s.strip().split()[-1] if s.strip() else ""`. -/
def lastWord (s : String) : String := ((pySplit s).getLast?).getD ("")

/-- Python `s.strip().split()[0] if s.strip() else ""`. -/
def firstWord (s : String) : String := ((pySplit s).head?).getD ("")

/-- Python `str.lower()` restricted to the character repertoire this code
meets: ASCII letters plus the diameter glyph pair. -/
def pyLowerChar (c : Char) : Char := if c = 'Ø' then 'ø' else c.toLower

/-- Python `str.lower()`. -/
def pyLower (s : String) : String := ⟨s.data.map pyLowerChar⟩

/-- Python regex `\w` for the characters this code meets (ASCII word
characters plus the diameter letter pair). -/
def pyIsWordChar (c : Char) : Bool :=
  c.isAlphanum || c == '_' || c == 'ø' || c == 'Ø'

/-- Characters kept by `DetectionService._normalize`'s final
`re.sub(r'[^\w.\-+/]', '', n)`. -/
def pyKeepNorm (c : Char) : Bool :=
  pyIsWordChar c || c == '.' || c == '-' || c == '+' || c == '/'

/-- The per-character effect of the replace chain in
`DetectionService._normalize`: `ø→o`, drop `"`, drop `'`, drop space, en
dash to hyphen.  (The chain's outputs `o` and `-` are not inputs of later
replacements, so one pass is faithful.) -/
def normChar1 (c : Char) : Option Char :=
  if c = 'ø' then some 'o'
  else if c = '"' then none
  else if c = Char.ofNat 39 then none
  else if c = ' ' then none
  else if c = '–' then some '-'
  else some c

/-- Embeds `DetectionService._normalize` (detection_service.py:600-605). -/
def normalize (text : String) : String :=
  if text = "" then ""
  else ⟨(((pyLower text).data.filterMap normChar1).filter pyKeepNorm)⟩

/-- Python substring test `a in b`. -/
def isSubstr (a b : List Char) : Bool :=
  (List.range (b.length + 1)).any (fun i => ((b.drop i).take a.length) == a)

/-!
difflib.SequenceMatcher (used by `_text_similarity` and by Strategy 3 of the
matcher) for inputs below the 200-character autojunk threshold, where the
junk machinery is inert.  `suffLen a b alo blo i j` is the length of the
longest common suffix of `a[alo..i]` and `b[blo..j]` ending exactly at
`(i, j)` — the value difflib's `j2len` chain computes.
-/

/-- Length of the common suffix of `a` and `b` ending at positions `i`, `j`,
windowed to start at or after `alo`, `blo` (structural recursion on `i` so
that concrete runs reduce in the kernel). -/
def suffLen (a b : List Char) (alo blo : ℕ) : ℕ → ℕ → ℕ
  | 0, j =>
    if 0 < a.length ∧ j < b.length ∧ alo = 0 ∧ blo ≤ j ∧
        a.getD 0 (' ') = b.getD j (' ') then 1 else 0
  | i + 1, j =>
    if i + 1 < a.length ∧ j < b.length ∧ alo ≤ i + 1 ∧ blo ≤ j ∧
        a.getD (i + 1) (' ') = b.getD j (' ') then
      (if alo ≤ i ∧ blo < j then suffLen a b alo blo i (j - 1) else 0) + 1
    else 0

/-- Embeds `SequenceMatcher.find_longest_match` on the window
`a[alo:ahi]`, `b[blo:bhi]` (no junk): returns `(besti, bestj, bestsize)`,
updating only on strictly larger blocks, scanning `i` then `j` ascending —
difflib's tie-breaking. -/
def flm (a b : List Char) (alo ahi blo bhi : ℕ) : ℕ × ℕ × ℕ :=
  ((List.range (ahi - alo)).map (· + alo)).foldl (fun best i =>
    ((List.range (bhi - blo)).map (· + blo)).foldl (fun best j =>
      if a.getD i (' ') = b.getD j (' ') ∧ i < a.length ∧ j < b.length then
        let k := suffLen a b alo blo i j
        if best.2.2 < k then (i + 1 - k, j + 1 - k, k) else best
      else best) best) (alo, blo, 0)

/-- Total size of `SequenceMatcher.get_matching_blocks` via the recursive
split around the longest match.  The fuel argument only serves termination;
each recursive window is strictly narrower in `a`, so any fuel at least
`ahi - alo + 1` computes the true value (the top-level call passes
`a.length + 1`). -/
def matchSum (a b : List Char) : ℕ → ℕ → ℕ → ℕ → ℕ → ℕ
  | 0, _, _, _, _ => 0
  | fuel + 1, alo, ahi, blo, bhi =>
    let t := flm a b alo ahi blo bhi
    if t.2.2 = 0 then 0
    else matchSum a b fuel alo t.1 blo t.2.1 + t.2.2 +
         matchSum a b fuel (t.1 + t.2.2) ahi (t.2.1 + t.2.2) bhi

/-- Total matched size `M` of `SequenceMatcher(None, a, b)`. -/
def difflibMatches (a b : List Char) : ℕ :=
  matchSum a b (a.length + 1) 0 a.length 0 b.length

/-- Embeds `SequenceMatcher.ratio()`: `2·M / (len(a) + len(b))` (and `1.0` when both
are empty). -/
def smRatio (s1 s2 : String) : ℚ :=
  let la := s1.data.length
  let lb := s2.data.length
  if la + lb = 0 then 1
  else (2 * (difflibMatches s1.data s2.data : ℚ)) / ((la : ℚ) + (lb : ℚ))

/-- Embeds `DetectionService._text_similarity` (detection_service.py:593-598). -/
def textSimilarity (s1 s2 : String) : ℚ :=
  let n1 := normalize s1
  let n2 := normalize s2
  if n1 = n2 then 1
  else if isSubstr n1.data n2.data || isSubstr n2.data n1.data then 4/5
  else smRatio n1 n2

/-- Fueled longest-common-subsequence length; every recursive call shrinks
the total length by at least one, so fuel `x.length + y.length` is exact. -/
def lcsLenF : ℕ → List Char → List Char → ℕ
  | 0, _, _ => 0
  | _ + 1, [], _ => 0
  | _ + 1, _ :: _, [] => 0
  | fuel + 1, a :: as, b :: bs =>
    if a = b then lcsLenF fuel as bs + 1
    else max (lcsLenF fuel (a :: as) bs) (lcsLenF fuel as (b :: bs))

/-- Longest-common-subsequence length (the quantity the spec's
"text similarity" sentence names). -/
def lcsLen (x y : List Char) : ℕ := lcsLenF (x.length + y.length) x y

/-- The similarity score exactly as claim C6 states it: LCS length over the
longer normalized length in the final case. -/
def specTextSimLcs (v o : String) : ℚ :=
  let n1 := normalize v
  let n2 := normalize o
  if n1 = n2 then 1
  else if isSubstr n1.data n2.data || isSubstr n2.data n1.data then 4/5
  else (lcsLen n1.data n2.data : ℚ) / ((max n1.data.length n2.data.length : ℕ) : ℚ)

/-- The similarity score as the amended claim states it: the final case is
difflib's ratio `2·M/(|n1|+|n2|)` instead of `LCS/max`. -/
def specTextSimDifflib (v o : String) : ℚ :=
  let n1 := normalize v
  let n2 := normalize o
  if n1 = n2 then 1
  else if isSubstr n1.data n2.data || isSubstr n2.data n1.data then 4/5
  else (2 * (difflibMatches n1.data n2.data : ℚ)) /
       ((n1.data.length : ℚ) + (n2.data.length : ℚ))

/-! Small regex-free embeddings of the anchored regular expressions used by
`DetectionService` and `ManufacturingPatterns`.  Each function is named for
the predicate it embeds; greedy matching with no backtracking is faithful
here because in every pattern the consecutive pieces draw from disjoint
character classes. -/

/-- Nonempty all-digit run. -/
def allDigits (l : List Char) : Bool := !l.isEmpty && l.all (fun c => c.isDigit)

/-- Regex `^[\d.]+$`. -/
def digitsDots (l : List Char) : Bool :=
  !l.isEmpty && l.all (fun c => c.isDigit || c == '.')

/-- Is the character `x` or `X`. -/
def isXChar (c : Char) : Bool := c == 'x' || c == 'X'

/-- Is the character a straight double or single quote. -/
def isQuoteChar (c : Char) : Bool := c == '"' || c == Char.ofNat 39

/-- Consume regex `\d+\.?\d*`; `none` if no leading digit, else the rest. -/
def chompDecimal (l : List Char) : Option (List Char) :=
  let p := l.span (fun c => c.isDigit)
  if p.1.isEmpty then none
  else match p.2 with
    | '.' :: r2 => some ((r2.span (fun c => c.isDigit)).2)
    | r => some r

/-- Consume an optional quote character. -/
def chompQuote (l : List Char) : List Char :=
  match l with
  | c :: r => if isQuoteChar c then r else l
  | [] => []

/-- Embeds `DetectionService._is_modifier` (detection_service.py:460-465 with
MODIFIER_PATTERNS of lines 75-81). -/
def isModifier (text : String) : Bool :=
  let l := pyStripL text.data
  let low := ⟨l.map pyLowerChar⟩
  -- ^\d+[xX]$
  (decide (2 ≤ l.length) && isXChar (l.getLastD (' ')) && allDigits l.dropLast) ||
  -- ^[xX]\d+$
  (match l with
   | c :: r => isXChar c && allDigits r
   | [] => false) ||
  -- ^\(\d+[xX]\)$
  (match l with
   | '(' :: r =>
     (r.getLastD (' ') == ')') &&
     (let inner := r.dropLast
      decide (2 ≤ inner.length) && isXChar (inner.getLastD (' ')) &&
        allDigits inner.dropLast)
   | _ => false) ||
  -- ^TYP\.?$ , ^REF\.?$ (IGNORECASE)
  (low == "typ" || low == "typ." || low == "ref" || low == "ref.")

/-- Is the character one of the diameter glyphs or `R`/`r`
(regex `[ØøR]` with IGNORECASE). -/
def isDiaR (c : Char) : Bool := c == 'Ø' || c == 'ø' || c == 'R' || c == 'r'

/-- Embeds `DetectionService._looks_like_dimension` (detection_service.py:467-473). -/
def looksLikeDimension (text : String) : Bool :=
  let l := pyStripL text.data
  -- ^\d+\.?\d*["\']?$
  (match chompDecimal l with
   | some r => (chompQuote r).isEmpty
   | none => false) ||
  -- ^\d+/\d+["\']?$
  (let p := l.span (fun c => c.isDigit)
   !p.1.isEmpty &&
   (match p.2 with
    | '/' :: r =>
      let q := r.span (fun c => c.isDigit)
      !q.1.isEmpty && (chompQuote q.2).isEmpty
    | _ => false)) ||
  -- ^\d+\.?\d*(?:in|mm)$ (IGNORECASE)
  (match chompDecimal l with
   | some r =>
     (⟨r.map pyLowerChar⟩ : String) == "in" || (⟨r.map pyLowerChar⟩ : String) == "mm"
   | none => false) ||
  -- ^[ØøR]\d+ (prefix match)
  (match l with
   | a :: b :: _ => isDiaR a && b.isDigit
   | _ => false)

/-- Embeds `DetectionService._is_complete_dim` (detection_service.py:475-481). -/
def isCompleteDim (text : String) : Bool :=
  let l := pyStripL text.data
  -- ^\d+\s+\d+/\d+["\']$
  (let p := l.span (fun c => c.isDigit)
   !p.1.isEmpty &&
   (let w := p.2.span pyIsSpace
    !w.1.isEmpty &&
    (let q := w.2.span (fun c => c.isDigit)
     !q.1.isEmpty &&
     (match q.2 with
      | '/' :: r =>
        let t := r.span (fun c => c.isDigit)
        !t.1.isEmpty &&
        (match t.2 with
         | [c] => isQuoteChar c
         | _ => false)
      | _ => false)))) ||
  -- ^\d+/\d+["\']$
  (let p := l.span (fun c => c.isDigit)
   !p.1.isEmpty &&
   (match p.2 with
    | '/' :: r =>
      let q := r.span (fun c => c.isDigit)
      !q.1.isEmpty &&
      (match q.2 with
       | [c] => isQuoteChar c
       | _ => false)
    | _ => false)) ||
  -- ^\d+\.?\d*["\']$
  (match chompDecimal l with
   | some [c] => isQuoteChar c
   | _ => false) ||
  -- ^\d+\.\d{2,}(?:in|mm)?$ (IGNORECASE)
  (let p := l.span (fun c => c.isDigit)
   !p.1.isEmpty &&
   (match p.2 with
    | '.' :: r =>
      let q := r.span (fun c => c.isDigit)
      decide (2 ≤ q.1.length) &&
      (q.2.isEmpty ||
       (⟨q.2.map pyLowerChar⟩ : String) == "in" ||
       (⟨q.2.map pyLowerChar⟩ : String) == "mm")
    | _ => false)) ||
  -- ^[ØøR]\d+\.?\d*["\']?$
  (match l with
   | a :: rest =>
     isDiaR a &&
     (match chompDecimal rest with
      | some r => (chompQuote r).isEmpty
      | none => false)
   | [] => false) ||
  -- ^\d+(?:\.\d+)?\s*mm$ (IGNORECASE)
  (let p := l.span (fun c => c.isDigit)
   !p.1.isEmpty &&
   (let afterInt : Option (List Char) :=
      match p.2 with
      | '.' :: r =>
        let q := r.span (fun c => c.isDigit)
        if q.1.isEmpty then none else some q.2
      | r => some r
    match afterInt with
    | some r =>
      let w := r.span pyIsSpace
      (⟨w.2.map pyLowerChar⟩ : String) == "mm"
    | none => false))

/-- Embeds `DetectionService._is_complete_feature` (detection_service.py:483-489). -/
def isCompleteFeature (text : String) : Bool :=
  isCompleteDim text ||
  -- ^\d+\s+(?:Teeth|Places|Holes|Slots|Plcs)$ (IGNORECASE)
  (let l := pyStripL text.data
   let p := l.span (fun c => c.isDigit)
   !p.1.isEmpty &&
   (let w := p.2.span pyIsSpace
    !w.1.isEmpty &&
    (let word : String := ⟨w.2.map pyLowerChar⟩
     word == "teeth" || word == "places" || word == "holes" ||
     word == "slots" || word == "plcs")))

/-- Embeds `ManufacturingPatterns.is_tolerance` (pattern_library.py:834-839):
regex `^[+\-±]\s*\.?\d+(?:\.\d+)?$` on the stripped text. -/
def isTolerance (text : String) : Bool :=
  match pyStripL text.data with
  | c :: rest =>
    (c == '+' || c == '-' || c == '±') &&
    (let w := rest.dropWhile pyIsSpace
     let body := match w with
       | '.' :: r => r
       | r => r
     let p := body.span (fun ch => ch.isDigit)
     !p.1.isEmpty &&
     (p.2.isEmpty ||
      (match p.2 with
       | '.' :: r2 =>
         let q := r2.span (fun ch => ch.isDigit)
         !q.1.isEmpty && q.2.isEmpty
       | _ => false)))
  | [] => false

/-- Embeds `DetectionService.DESCRIPTION_STARTERS` (detection_service.py:84). -/
def descriptionStarters : List String :=
  ["for", "max", "min", "typ", "ref", "approx", "nominal"]

/-- Embeds `DetectionService.PHRASE_TERMINATORS` (detection_service.py:87-88). -/
def phraseTerminators : List String :=
  ["width", "length", "diameter", "depth", "height", "od", "id",
   "dia", "thk", "thickness", "travel", "shaft", "bore", "thread"]

/-- Does `suffix` end `l` (Python `str.endswith`)? -/
def endsWithL (l suffix : List Char) : Bool :=
  (l.drop (l.length - suffix.length)) == suffix

/-- Embeds `DetectionService._ends_description_phrase` (detection_service.py:453-458). -/
def endsDescriptionPhrase (text : String) : Bool :=
  let base := pyStripL (pyLower text).data
  -- re.sub(r'[.,;:]+$', '', ...)
  let cleaned := (base.reverse.dropWhile
    (fun c => c == '.' || c == ',' || c == ';' || c == ':')).reverse
  phraseTerminators.any (fun t => cleaned == t.data || endsWithL cleaned t.data)

/-- Embeds `DetectionService._is_measurement_related` (detection_service.py:443-451). -/
def isMeasurementRelated (text : String) : Bool :=
  let t : String := ⟨pyStripL (pyLower text).data⟩
  (["teeth", "tooth", "pitch", "places", "holes", "slots",
    "threads", "flange", "tube", "shaft", "bore", "key",
    "od", "id", "dia", "diameter", "depth", "width", "length",
    "height", "thk", "thickness", "travel", "max", "min"] : List String).contains t

/-- The connector list of `_should_merge_horizontal_improved`
(detection_service.py:393). -/
def connectorWords : List String :=
  ["x", "×", "wd", "lg", "pitch", "teeth", "diameter", "dia", "major", "minor"]

/-- Regex `^(?:x|X|×|Wd\.?|Lg\.?|Key|OD|ID|Pitch|Teeth|Diameter|Dia\.?|Major|Minor)$`
with IGNORECASE (detection_service.py:397). -/
def connectorTokenRe (s : String) : Bool :=
  let t : String := ⟨s.data.map pyLowerChar⟩
  (["x", "×", "wd", "wd.", "lg", "lg.", "key", "od", "id", "pitch",
    "teeth", "diameter", "dia", "dia.", "major", "minor"] : List String).contains t

/-- Regex `^(?:Flange|Tube|OD|ID|Pipe|Thread|For|Pitch|Teeth|Max|Min|Typ|Diameter|Dia\.?|Major|Minor)$`
with IGNORECASE (detection_service.py:438). -/
def verticalLabelRe (s : String) : Bool :=
  let t : String := ⟨s.data.map pyLowerChar⟩
  (["flange", "tube", "od", "id", "pipe", "thread", "for", "pitch",
    "teeth", "max", "min", "typ", "diameter", "dia", "dia.",
    "major", "minor"] : List String).contains t

/-!  `ManufacturingPatterns.extract_numeric_value` (pattern_library.py:842-872). -/

/-- Numeric value of a digit run. -/
def digitsToNat (l : List Char) : ℕ :=
  l.foldl (fun n c => 10 * n + (c.toNat - 48)) 0

/-- Python `float()` of a matched `-?\d+\.?\d*` string, exactly. -/
def decToRat (neg : Bool) (ip fp : List Char) : ℚ :=
  let m : ℚ := (digitsToNat ip : ℤ) + mkRat (digitsToNat fp) (10 ^ fp.length)
  if neg then -m else m

/-- Leftmost match of `re.search(r'-?\d+\.?\d*', text)`, returned as its
float value.  The engine tries each start position in order; a match starts
at a digit, or at a minus sign directly followed by a digit. -/
def decimalSearch : List Char → Option ℚ
  | [] => none
  | c :: rest =>
    if c.isDigit then
      let p := (c :: rest).span (fun ch => ch.isDigit)
      match p.2 with
      | '.' :: r2 => some (decToRat false p.1 (r2.span (fun ch => ch.isDigit)).1)
      | _ => some (decToRat false p.1 [])
    else if c == '-' then
      match rest with
      | d :: _ =>
        if d.isDigit then
          let p := rest.span (fun ch => ch.isDigit)
          match p.2 with
          | '.' :: r2 => some (decToRat true p.1 (r2.span (fun ch => ch.isDigit)).1)
          | _ => some (decToRat true p.1 [])
        else decimalSearch rest
      | [] => none
    else decimalSearch rest

/-- Leftmost match of `re.search(r'(\d+)\s*/\s*(\d+)', text)` as the two
digit groups.  On failure at one start position the engine retries from the
next character. -/
def fracSearch : List Char → Option (ℕ × ℕ)
  | [] => none
  | c :: rest =>
    (if c.isDigit then
      let p := (c :: rest).span (fun ch => ch.isDigit)
      let w := p.2.dropWhile pyIsSpace
      match w with
      | '/' :: r2 =>
        let q := (r2.dropWhile pyIsSpace).span (fun ch => ch.isDigit)
        if q.1.isEmpty then none else some (digitsToNat p.1, digitsToNat q.1)
      | _ => none
    else none).orElse (fun _ => fracSearch rest)

/-- Leftmost match of `re.search(r'(\d+)\s+(\d+)\s*/\s*(\d+)', text)`. -/
def mixedSearch : List Char → Option (ℕ × ℕ × ℕ)
  | [] => none
  | c :: rest =>
    (if c.isDigit then
      let p := (c :: rest).span (fun ch => ch.isDigit)
      let w := p.2.span pyIsSpace
      if w.1.isEmpty then none
      else
        let q := w.2.span (fun ch => ch.isDigit)
        if q.1.isEmpty then none
        else
          match q.2.dropWhile pyIsSpace with
          | '/' :: r2 =>
            let t := (r2.dropWhile pyIsSpace).span (fun ch => ch.isDigit)
            if t.1.isEmpty then none
            else some (digitsToNat p.1, digitsToNat q.1, digitsToNat t.1)
          | _ => none
    else none).orElse (fun _ => mixedSearch rest)

/-- Embeds `ManufacturingPatterns.extract_numeric_value`: decimal first, then
fraction, then mixed fraction; a zero denominator raises and falls through
to the next branch. -/
def extractNumericValue (text : String) : Option ℚ :=
  let t := pyStripL text.data
  match decimalSearch t with
  | some q => some q
  | none =>
    match (match fracSearch t with
           | some (n, k) => if k = 0 then none else some ((n : ℚ) / (k : ℚ))
           | none => none) with
    | some q => some q
    | none =>
      match mixedSearch t with
      | some (w, n, k) => if k = 0 then none else some ((w : ℚ) + (n : ℚ) / (k : ℚ))
      | none => none

/-! The VLM response validator of
`VisionService._parse_dimension_with_location_response`
(vision_service.py:216-233): clamp each coordinate into `[0, 1]` and repair
degenerate boxes. -/

/-- One coordinate after `max(0, min(1, v))`. -/
def clamp01 (q : ℚ) : ℚ := max 0 (min 1 q)

/-- A parsed VLM bounding box (normalized 0-1 floats). -/
structure QBox where
  xmin : ℚ
  ymin : ℚ
  xmax : ℚ
  ymax : ℚ
deriving DecidableEq

/-- The clamp-and-repair step of the VLM parser. -/
def clampRepair (x0 y0 x1 y1 : ℚ) : QBox :=
  let xmin := clamp01 x0
  let ymin := clamp01 y0
  let xmax := clamp01 x1
  let ymax := clamp01 y1
  let xmax := if xmax ≤ xmin then xmin + 1/20 else xmax
  let ymax := if ymax ≤ ymin then ymin + 3/100 else ymax
  ⟨xmin, ymin, xmax, ymax⟩

/-! Data model.  Python object identity (`id()`), which the matcher's
`used_ocr_ids` set stores, is modeled by a `SpanId` tag: `raw i` for the
i-th raw OCR detection, `grp k` for the k-th merged (multi-member) OCR
group — a fresh object in Python — and `syn g` for the synthetic span
built by Strategy 3 while processing the g-th VLM entry (also fresh). -/

/-- Identity tag standing for Python `id()` of a span object. -/
inductive SpanId where
  | raw : ℕ → SpanId
  | grp : ℕ → SpanId
  | syn : ℕ → SpanId
deriving DecidableEq

/-- Is an identity tag a Strategy-3 synthetic tag. -/
def SpanId.isSyn : SpanId → Bool
  | .syn _ => true
  | _ => false

/-- Embeds `OCRDetection` (ocr_service.py:28-40): text, a normalized integer
bounding box, a confidence, plus the identity tag. -/
structure OCRDet where
  text : String
  xmin : ℤ
  ymin : ℤ
  xmax : ℤ
  ymax : ℤ
  confidence : ℚ
  sid : SpanId
deriving DecidableEq

/-- Embeds `GeminiDimension` (detection_service.py:40-46). -/
structure GeminiDim where
  value : String
  x_percent : ℚ
  y_percent : ℚ
  confidence : ℚ
deriving DecidableEq

/-- Pydantic `BoundingBox` (schemas.py:11-24): integer coordinates. -/
structure BBoxI where
  ymin : ℤ
  xmin : ℤ
  ymax : ℤ
  xmax : ℤ
deriving DecidableEq

/-- Embeds `BoundingBox.center_x`: Python `(xmin + xmax) // 2` (floor division). -/
def BBoxI.center_x (b : BBoxI) : ℤ := (b.xmin + b.xmax) / 2

/-- Embeds `BoundingBox.center_y`. -/
def BBoxI.center_y (b : BBoxI) : ℤ := (b.ymin + b.ymax) / 2

/-- Pydantic coercion of a float to the `int` fields of `BoundingBox`
(truncation toward zero; the values that reach it at runtime are integral,
where every coercion mode agrees).  This is only the coercion: pydantic
additionally validates every field (see `pydanticIntOk`), and
`BoundingBox(**...)` raises `ValidationError` on a value that fails it, so
a theorem about a construction whose inputs are not known to be in range
carries that validity as a hypothesis. -/
def mkBoundingBox (xmin ymin xmax ymax : ℚ) : BBoxI :=
  ⟨pyInt ymin, pyInt xmin, pyInt ymax, pyInt xmax⟩

/-- Pydantic acceptance of one float for an `int` field declared
`Field(..., ge=0, le=1000)` (schemas.py:13-16): the value denotes an
integer and lies within the bounds.  A value satisfying this is accepted
by every pydantic coercion mode; an out-of-range value makes
`BoundingBox(**...)` raise `ValidationError` in all of them. -/
def pydanticIntOk (q : ℚ) : Bool :=
  q.den == 1 && decide ((0 : ℚ) ≤ q) && decide (q ≤ 1000)

/-- Pydantic `Dimension` (schemas.py:27-36), the fields the core touches. -/
structure DimensionM where
  id : ℕ
  value : String
  zone : Option String
  bounding_box : BBoxI
  confidence : ℚ
  page : ℕ
deriving DecidableEq

/-- Insert `x` into an ascending list, after any element not strictly
greater — the insertion step of a stable ascending sort. -/
def insSorted (lt : α → α → Bool) (x : α) : List α → List α
  | [] => [x]
  | y :: ys => if lt y x then y :: insSorted lt x ys else x :: y :: ys

/-- Stable ascending sort by the strict comparison `lt`; models Python's
stable `sort`/`sorted`. -/
def stableSort (lt : α → α → Bool) (l : List α) : List α :=
  l.foldr (insSorted lt) []

/-- The `(ymin, xmin)` sort key used throughout `detection_service.py`. -/
def detLt (a b : OCRDet) : Bool :=
  decide (a.ymin < b.ymin ∨ (a.ymin = b.ymin ∧ a.xmin < b.xmin))

/-! `DetectionService._group_ocr` and its helpers
(detection_service.py:255-509). -/

/-- Embeds `DetectionService._should_merge_horizontal_improved`
(detection_service.py:363-409).  Returns (merge?, starts-phrase?). -/
def shouldMergeHorizontal (prev curr : String) (gap : ℤ)
    (inPhrase : Bool) : Bool × Bool :=
  let prevLast := lastWord prev
  let currLower := pyStrip (pyLower curr)
  if inPhrase && endsDescriptionPhrase curr then (true, false)
  else if inPhrase && decide (gap ≤ 50) then (true, false)
  else if descriptionStarters.contains currLower &&
      (looksLikeDimension prevLast || isMeasurementRelated prevLast) then
    (true, true)
  else if isModifier prevLast && looksLikeDimension curr then (true, false)
  else if looksLikeDimension prevLast && isModifier curr then (true, false)
  else if connectorWords.contains (pyLower prevLast) then (true, false)
  else if connectorTokenRe curr then (true, false)
  else if digitsDots prevLast.data &&
      (["in", "mm", "\"", String.mk [Char.ofNat 39], "deg"] : List String).contains
        (pyLower curr) then
    (true, false)
  else if decide (gap ≤ 15) && !(isCompleteDim prev && isCompleteDim curr) then
    (true, false)
  else (false, false)

/-- Embeds `DetectionService._should_merge_vertical_improved`
(detection_service.py:411-441). -/
def shouldMergeVertical (upper lower : String) (_inPhrase : Bool) : Bool × Bool :=
  let upperClean := pyStrip upper
  let lowerFirst := pyLower (firstWord lower)
  if isCompleteFeature upperClean then
    if isTolerance lower then (true, false)
    else if lowerFirst == "for" then (true, true)
    else (false, false)
  else if isTolerance lower then (true, false)
  else if verticalLabelRe lower then (true, false)
  else (false, false)

/-- Embeds `DetectionService._should_group_improved` (detection_service.py:326-361). -/
def shouldGroupImproved (det1 det2 : OCRDet) (hT vT vS : ℤ)
    (inPhrase : Bool) : Bool × Bool :=
  let c1y : ℚ := ((det1.ymin + det1.ymax : ℤ) : ℚ) / 2
  let c2y : ℚ := ((det2.ymin + det2.ymax : ℤ) : ℚ) / 2
  let c1x : ℚ := ((det1.xmin + det1.xmax : ℤ) : ℚ) / 2
  let c2x : ℚ := ((det2.xmin + det2.xmax : ℤ) : ℚ) / 2
  let xGap : ℤ := det2.xmin - det1.xmax
  let yDiff : ℚ := |c2y - c1y|
  let xDiff : ℚ := |c2x - c1x|
  let t1 := pyStrip det1.text
  let t2 := pyStrip det2.text
  if yDiff ≤ (vT : ℚ) ∧ -5 ≤ xGap ∧ xGap ≤ hT then
    shouldMergeHorizontal t1 t2 xGap inPhrase
  else if xDiff ≤ (hT : ℚ) * (3/2) ∧ 0 < c2y - c1y ∧ c2y - c1y ≤ (vS : ℚ) then
    shouldMergeVertical t1 t2 inPhrase
  else (false, false)

/-- Expansion state of `_expand_group_with_phrases`: the growing group, the
set of consumed indices into the sorted list, and the phrase flag. -/
structure ExpState where
  group : List OCRDet
  used : List ℕ
  inPhrase : Bool

/-- First group member that accepts `det`, as in the inner
`for g_det in list(group)` loop; returns its starts-phrase flag. -/
def tryMembers (group : List OCRDet) (det : OCRDet) (hT vT vS : ℤ)
    (inPhrase : Bool) : Option Bool :=
  group.findSome? (fun g =>
    let r := shouldGroupImproved g det hT vT vS inPhrase
    if r.1 then some r.2 else none)

/-- One full scan of `all` (one iteration of the `while changed` loop in
`_expand_group_with_phrases`, detection_service.py:288-324). -/
def scanOnce (all : List (ℕ × OCRDet)) (hT vT vS : ℤ)
    (st : ExpState) : ExpState × Bool :=
  all.foldl (fun acc p =>
    let s := acc.1
    if s.used.contains p.1 then acc
    else
      match tryMembers s.group p.2 hT vT vS s.inPhrase with
      | none => acc
      | some starts =>
        let ph := if starts then true else s.inPhrase
        let ph := if endsDescriptionPhrase p.2.text then false else ph
        (⟨s.group ++ [p.2], s.used ++ [p.1], ph⟩, true)) (st, false)

/-- The `while changed` loop; each productive pass consumes at least one
index, so fuel `all.length + 1` reaches the fixed point. -/
def expandLoop (all : List (ℕ × OCRDet)) (hT vT vS : ℤ) :
    ℕ → ExpState → ExpState
  | 0, st => st
  | fuel + 1, st =>
    let r := scanOnce all hT vT vS st
    if r.2 then expandLoop all hT vT vS fuel r.1 else r.1

/-- Text concatenation of `_merge_group` (detection_service.py:491-502):
single spaces inserted where `y_gap > 8` or `x_gap > 10`. -/
def mergedText (l : List OCRDet) : String :=
  match l with
  | [] => ""
  | d0 :: rest =>
    (rest.foldl (fun (acc : String × OCRDet) d =>
      let sep : String :=
        if 8 < d.ymin - acc.2.ymax || 10 < d.xmin - acc.2.xmax then (" ") else ("")
      (acc.1 ++ sep ++ d.text, d)) (d0.text, d0)).1

/-- Minimum of a nonempty integer list (defaults to 0 when empty, a case the
callers never hit). -/
def minimumL : List ℤ → ℤ
  | [] => 0
  | x :: xs => xs.foldl min x

/-- Maximum of a nonempty integer list. -/
def maximumL : List ℤ → ℤ
  | [] => 0
  | x :: xs => xs.foldl max x

/-- Embeds `DetectionService._merge_group` (detection_service.py:491-509).  A
singleton group is returned as-is — the same Python object, hence the same
identity tag; a merged group is a fresh object tagged `grp k` with `k` the
group's position in the output. -/
def mergeGroup (k : ℕ) (g : List OCRDet) : OCRDet :=
  match g with
  | [d] => d
  | _ =>
    let sg := stableSort detLt g
    { text := mergedText sg
      xmin := minimumL (sg.map (fun d => d.xmin))
      ymin := minimumL (sg.map (fun d => d.ymin))
      xmax := maximumL (sg.map (fun d => d.xmax))
      ymax := maximumL (sg.map (fun d => d.ymax))
      confidence := ((sg.map (fun d => d.confidence)).foldl (· + ·) 0) / (sg.length : ℚ)
      sid := SpanId.grp k }

/-- Embeds `DetectionService._group_ocr` (detection_service.py:255-286). -/
def groupOcr (dets : List OCRDet) (avg : ℚ) : List OCRDet :=
  if dets.isEmpty then []
  else
    let sorted := stableSort detLt dets
    let hT : ℤ := max 40 (pyInt (avg * 3))
    let vT : ℤ := pyInt (avg * (3/5))
    let vS : ℤ := pyInt (avg * (5/2))
    let all := sorted.enum
    let groups := (all.foldl (fun (acc : List (List OCRDet) × List ℕ) p =>
      if acc.2.contains p.1 then acc
      else
        let st := expandLoop all hT vT vS (all.length + 1)
          ⟨[p.2], acc.2 ++ [p.1], false⟩
        (acc.1 ++ [st.group], st.used)) ([], [])).1
    groups.enum.map (fun p => mergeGroup p.1 p.2)

/-! `DetectionService._match_by_location` and helpers
(detection_service.py:511-645).  The square root of the float distance
computation is a parameter `rsqrt`; concrete runs below instantiate it with
`ratSqrt`, which is exact on the perfect squares those runs produce. -/

/-- Fueled integer square root (round down); recursion depth is
logarithmic, fuel `n` is always sufficient. -/
def natSqrtF : ℕ → ℕ → ℕ
  | 0, n => if n < 2 then n else 0
  | fuel + 1, n =>
    if n < 2 then n
    else
      let r := 2 * natSqrtF fuel (n / 4)
      if (r + 1) * (r + 1) ≤ n then r + 1 else r

/-- Integer square root, rounded down. -/
def natSqrt (n : ℕ) : ℕ := natSqrtF n n

/-- Exact square root on perfect-square rationals (arbitrary elsewhere). -/
def ratSqrt (q : ℚ) : ℚ := (natSqrt q.num.toNat : ℚ) / (natSqrt q.den : ℚ)

/-- Center x of an `OCRDetection` box as the matcher computes it. -/
def ocrCx (o : OCRDet) : ℚ := ((o.xmin + o.xmax : ℤ) : ℚ) / 2

/-- Center y of an `OCRDetection` box as the matcher computes it. -/
def ocrCy (o : OCRDet) : ℚ := ((o.ymin + o.ymax : ℤ) : ℚ) / 2

/-- Squared distance from a span center to the matching target. -/
def distSq (o : OCRDet) (tx ty : ℚ) : ℚ :=
  (ocrCx o - tx) * (ocrCx o - tx) + (ocrCy o - ty) * (ocrCy o - ty)

/-- One Strategy-1 iteration (detection_service.py:532-547). -/
def s1Step (rsqrt : ℚ → ℚ) (used : List SpanId) (gv : String)
    (tx ty maxDist : ℚ) (best : Option OCRDet × ℚ) (ocr : OCRDet) :
    Option OCRDet × ℚ :=
  if used.contains ocr.sid then best
  else
    let distance := rsqrt (distSq ocr tx ty)
    let ts := textSimilarity gv ocr.text
    if ts < 3/20 then best
    else
      let loc := max 0 (1 - distance / maxDist)
      if loc > 3/10 ∧ ts > 3/10 then
        let combined := loc * (3/5) + ts * (2/5)
        if combined > best.2 then (some ocr, combined) else best
      else best

/-- Strategy 1 (detection_service.py:531-547): best combined
location-and-text score over unconsumed grouped spans. -/
def strategy1 (rsqrt : ℚ → ℚ) (grouped : List OCRDet) (used : List SpanId)
    (gv : String) (tx ty maxDist : ℚ) : Option OCRDet × ℚ :=
  grouped.foldl (s1Step rsqrt used gv tx ty maxDist) (none, 0)

/-- One Strategy-2 collection iteration (detection_service.py:552-562). -/
def s2Step (rsqrt : ℚ → ℚ) (used : List SpanId) (gv : String)
    (tx ty maxDist : ℚ) (acc : List (OCRDet × ℚ × ℚ)) (ocr : OCRDet) :
    List (OCRDet × ℚ × ℚ) :=
  if used.contains ocr.sid then acc
  else
    let ts := textSimilarity gv ocr.text
    if ts ≥ 1/2 then
      let distance := rsqrt (distSq ocr tx ty)
      let maxAllowed := if ts > 4/5 then maxDist * (3/2) else maxDist
      if distance < maxAllowed then acc ++ [(ocr, ts, distance)] else acc
    else acc

/-- Strategy 2 candidate collection (detection_service.py:551-562). -/
def strategy2Candidates (rsqrt : ℚ → ℚ) (grouped : List OCRDet)
    (used : List SpanId) (gv : String) (tx ty maxDist : ℚ) :
    List (OCRDet × ℚ × ℚ) :=
  grouped.foldl (s2Step rsqrt used gv tx ty maxDist) []

/-- The Python `sort(key=lambda x: (x[2], -x[1]))` comparison. -/
def candLt (p q : OCRDet × ℚ × ℚ) : Bool :=
  decide (p.2.2 < q.2.2 ∨ (p.2.2 = q.2.2 ∧ q.2.1 < p.2.1))

/-- Strategies 1 then 2 (detection_service.py:531-567): the value of
`(best_match, best_score)` after the Strategy 2 block. -/
def afterS2 (rsqrt : ℚ → ℚ) (grouped : List OCRDet) (used : List SpanId)
    (gv : String) (tx ty maxDist : ℚ) : Option OCRDet × ℚ :=
  let s1 := strategy1 rsqrt grouped used gv tx ty maxDist
  if s1.1 = none ∨ s1.2 < 1/2 then
    match stableSort candLt (strategy2Candidates rsqrt grouped used gv tx ty maxDist) with
    | [] => s1
    | c :: _ => (some c.1, c.2.1)
  else s1

/-- Embeds `DetectionService._combinations` (detection_service.py:640-645):
ordered sub-lists of the given size, in the source's enumeration order. -/
def combinationsL : List α → ℕ → List (List α)
  | _, 0 => [[]]
  | [], _ + 1 => []
  | x :: xs, n + 1 =>
    (combinationsL xs n).map (fun c => x :: c) ++ combinationsL xs (n + 1)

/-- The subset scan of `_try_combine_nearby` (detection_service.py:622-627):
sizes descending, first combination whose normalized concatenation is
`> 0.7`-similar to the target; returns the sorted combination and its
joined text. -/
def firstCombo (candidates : List OCRDet) (targetNorm : String) :
    Option (List OCRDet × String) :=
  ((List.range candidates.length).map (fun k => candidates.length - k)).findSome?
    (fun size =>
      (combinationsL candidates size).findSome? (fun combo =>
        let cs := stableSort detLt combo
        let ctext := String.intercalate (" ") (cs.map (fun d => d.text))
        if smRatio targetNorm (normalize ctext) > 7/10 then some (cs, ctext)
        else none))

/-- One nearby-collection iteration of `_try_combine_nearby`
(detection_service.py:609-615). -/
def nearbyStep (rsqrt : ℚ → ℚ) (used : List SpanId) (tx ty maxDist : ℚ)
    (acc : List (OCRDet × ℚ)) (ocr : OCRDet) : List (OCRDet × ℚ) :=
  if used.contains ocr.sid then acc
  else
    let dist := rsqrt (distSq ocr tx ty)
    if dist < maxDist then acc ++ [(ocr, dist)] else acc

/-- Embeds `DetectionService._try_combine_nearby` (detection_service.py:607-638).
The returned span is a fresh object, tagged `syn synId`. -/
def tryCombineNearby (rsqrt : ℚ → ℚ) (gv : String) (raw : List OCRDet)
    (tx ty : ℚ) (used : List SpanId) (maxDist : ℚ) (synId : ℕ) : Option OCRDet :=
  let nearby := raw.foldl (nearbyStep rsqrt used tx ty maxDist) []
  if nearby.isEmpty then none
  else
    let candidates := ((stableSort (fun p q => decide (p.2 < q.2)) nearby).take 6).map
      (fun p => p.1)
    match firstCombo candidates (normalize gv) with
    | some (cs, ctext) =>
      some { text := ctext
             xmin := minimumL (cs.map (fun d => d.xmin))
             ymin := minimumL (cs.map (fun d => d.ymin))
             xmax := maximumL (cs.map (fun d => d.xmax))
             ymax := maximumL (cs.map (fun d => d.ymax))
             confidence := 7/10
             sid := SpanId.syn synId }
    | none => none

/-- The `(best_match, best_score)` pair after all three matching strategies
for one VLM entry (detection_service.py:528-576). -/
def selectBest (rsqrt : ℚ → ℚ) (grouped raw : List OCRDet)
    (used : List SpanId) (g : GeminiDim) (avgH : ℚ) (synId : ℕ) :
    Option (OCRDet × ℚ) :=
  let tx := g.x_percent * 10
  let ty := g.y_percent * 10
  let maxDist := max 150 (avgH * 5)
  let s2 := afterS2 rsqrt grouped used g.value tx ty maxDist
  let keep : Option (OCRDet × ℚ) := s2.1.map (fun o => (o, s2.2))
  if s2.1 = none ∨ s2.2 < 1/2 then
    match tryCombineNearby rsqrt g.value raw tx ty used maxDist synId with
    | some m =>
      let vs := textSimilarity g.value m.text
      if vs > 1/2 then some (m, vs) else keep
    | none => keep
  else keep

/-- The Strategy 4 virtual dimension (detection_service.py:579-585): a
synthetic box `target ± (30, 15)` through the pydantic int coercion.  The
real `BoundingBox(**virtual_box)` also validates the four coordinates and
raises `ValidationError` when one falls outside 0..1000, so this value is
the code's output only when `virtualBoxOk` holds, which the C4 theorem
takes as a hypothesis. -/
def virtualDim (g : GeminiDim) : DimensionM :=
  { id := 0
    value := g.value
    zone := none
    bounding_box := mkBoundingBox (g.x_percent * 10 - 30) (g.y_percent * 10 - 15)
      (g.x_percent * 10 + 30) (g.y_percent * 10 + 15)
    confidence := g.confidence
    page := 1 }

/-- Pydantic validation of the four coordinates handed to
`BoundingBox(**virtual_box)` in Strategy 4 (detection_service.py:580-584
against schemas.py:11-16). -/
def virtualBoxOk (g : GeminiDim) : Bool :=
  pydanticIntOk (g.x_percent * 10 - 30) && pydanticIntOk (g.x_percent * 10 + 30) &&
  pydanticIntOk (g.y_percent * 10 - 15) && pydanticIntOk (g.y_percent * 10 + 15)

/-- The matcher's running state: the `used_ocr_ids` set (as the list of ids
in insertion order) and the `matched` output list. -/
structure MatchState where
  used : List SpanId
  matched : List DimensionM
deriving DecidableEq

/-- Processing of one VLM entry inside `_match_by_location`'s main loop
(detection_service.py:521-589); `p.1` is the entry's position, used only to
tag Strategy 3's fresh object. -/
def processGem (rsqrt : ℚ → ℚ) (grouped raw : List OCRDet) (avgH : ℚ)
    (st : MatchState) (p : ℕ × GeminiDim) : MatchState :=
  let g := p.2
  match selectBest rsqrt grouped raw st.used g avgH p.1 with
  | none =>
    if g.confidence > 3/4 then { st with matched := st.matched ++ [virtualDim g] }
    else st
  | some (m, score) =>
    { used := st.used ++ [m.sid]
      matched := st.matched ++
        [{ id := 0, value := g.value, zone := none,
           bounding_box := ⟨m.ymin, m.xmin, m.ymax, m.xmax⟩,
           confidence := score, page := 1 }] }

/-- The final state of `_match_by_location`'s loop. -/
def matchRun (rsqrt : ℚ → ℚ) (grouped raw : List OCRDet)
    (gems : List GeminiDim) (avgH : ℚ) : MatchState :=
  gems.enum.foldl (processGem rsqrt grouped raw avgH) ⟨[], []⟩

/-- Embeds `DetectionService._match_by_location` (detection_service.py:511-591). -/
def matchByLocation (rsqrt : ℚ → ℚ) (grouped raw : List OCRDet)
    (gems : List GeminiDim) (avgH : ℚ) : List DimensionM :=
  (matchRun rsqrt grouped raw gems avgH).matched

/-! Zone assignment: `DetectionService._calculate_zone`
(detection_service.py:647-652) and the grid service
(grid_service.py:102-203). -/

/-- Embeds `DetectionService.STANDARD_GRID_COLUMNS`. -/
def STANDARD_GRID_COLUMNS : List String := ["H", "G", "F", "E", "D", "C", "B", "A"]

/-- Embeds `DetectionService.STANDARD_GRID_ROWS`. -/
def STANDARD_GRID_ROWS : List String := ["4", "3", "2", "1"]

/-- Python list indexing (negative indices count from the end). -/
def pyIndexStr (l : List String) (i : ℤ) : String :=
  if 0 ≤ i then l.getD i.toNat ("") else l.getD (l.length - (-i).toNat) ("")

/-- Embeds `DetectionService._calculate_zone` (detection_service.py:647-652). -/
def calculateZone (cx cy : ℤ) : String :=
  let cols := STANDARD_GRID_COLUMNS
  let rows := STANDARD_GRID_ROWS
  let colIdx := min (pyInt ((cx : ℚ) / ((1000 : ℚ) / (cols.length : ℚ))))
    ((cols.length : ℤ) - 1)
  let rowIdx := min (pyInt ((cy : ℚ) / ((1000 : ℚ) / (rows.length : ℚ))))
    ((rows.length : ℤ) - 1)
  pyIndexStr cols colIdx ++ pyIndexStr rows rowIdx

/-- Embeds `GridService._calculate_edges` (grid_service.py:102-107):
`int(i * 1000 / count)` for `i = 0 .. count`. -/
def calculateEdges (count : ℕ) : List ℤ :=
  (List.range (count + 1)).map (fun i => pyInt (((i : ℚ) * 1000) / (count : ℚ)))

/-- Embeds `GridService.ZoneBoundaries` (grid_service.py:16-22). -/
structure ZoneBoundaries where
  columns : List String
  rows : List String
  column_edges : List ℤ
  row_edges : List ℤ

/-- Embeds `GridService.set_grid_manually` (grid_service.py:109-119). -/
def setGridManually (cols rows : List String) : ZoneBoundaries :=
  ⟨cols, rows, calculateEdges cols.length, calculateEdges rows.length⟩

/-- Embeds `GridService._find_zone_index` (grid_service.py:158-177). -/
def findZoneIndex (pos : ℤ) (edges : List ℤ) : Option ℕ :=
  match (List.range (edges.length - 1)).find? (fun i =>
      decide (edges.getD i 0 ≤ pos ∧ pos < edges.getD (i + 1) 0)) with
  | some i => some i
  | none =>
    if pos = edges.getD (edges.length - 1) 0 ∧ 1 < edges.length then
      some (edges.length - 2)
    else none

/-- Embeds `GridService.assign_zone` (grid_service.py:121-156), for a configured
grid (the unconfigured service returns `None` before reaching this code). -/
def assignZone (zb : ZoneBoundaries) (b : BBoxI) : Option String :=
  match findZoneIndex b.center_x zb.column_edges,
        findZoneIndex b.center_y zb.row_edges with
  | some ci, some ri => some (zb.columns.getD ci ("") ++ zb.rows.getD ri (""))
  | _, _ => none

/-- Embeds `GridService.recalculate_zone` (grid_service.py:193-203): the exposed
recompute-zone operation; delegates to `assign_zone`. -/
def recalculateZone (zb : ZoneBoundaries) (b : BBoxI) : Option String :=
  assignZone zb b

/-! The per-assembly walk of `DetectionService.detect_dimensions_multipage`
(detection_service.py:102-170) and the page-cap logic of
`FileService._process_pdf` (file_service.py:281-509).  The network-derived
per-page contents are parameters; the control flow, ordering, id assignment
and warning plumbing are the embedded code. -/

/-- Embeds `DetectionService._sort_reading_order` (detection_service.py:654-657):
stable sort by `(center_y // 100, center_x)`. -/
def sortReadingOrder (dims : List DimensionM) : List DimensionM :=
  if dims.isEmpty then []
  else
    stableSort (fun a b => decide
      (a.bounding_box.center_y / 100 < b.bounding_box.center_y / 100 ∨
       (a.bounding_box.center_y / 100 = b.bounding_box.center_y / 100 ∧
        a.bounding_box.center_x < b.bounding_box.center_x))) dims

/-- One page of a `FileProcessingResult`. -/
structure PageInM where
  page_number : ℕ
  dims : List DimensionM

/-- Embeds `FileProcessingResult` (file_service.py:91-105), the fields the
orchestrator reads. -/
structure FileResultM where
  success : Bool
  total_pages : ℕ
  pages : List PageInM
  error_message : Option String

/-- One `PageDetectionResult` (detection_service.py:49-57), the fields the
claims mention. -/
structure PageOutM where
  page_number : ℕ
  dimensions : List DimensionM

/-- Embeds `MultiPageDetectionResult` (detection_service.py:59-65). -/
structure MultiResultM where
  success : Bool
  total_pages : ℕ
  pages : List PageOutM
  all_dimensions : List DimensionM
  error_message : Option String

/-- The per-dimension mutation of the orchestrator loop
(detection_service.py:134-141): assign zone, id, page, with the running
counter. -/
def assignDims (c : ℕ) (pageNo : ℕ) : List DimensionM → List DimensionM × ℕ
  | [] => ([], c)
  | d :: ds =>
    let d2 := { d with
      zone := some (calculateZone d.bounding_box.center_x d.bounding_box.center_y)
      id := c
      page := pageNo }
    let r := assignDims (c + 1) pageNo ds
    (d2 :: r.1, r.2)

/-- The page loop of `detect_dimensions_multipage`
(detection_service.py:120-156): reading-order sort per page, then the
sequential id/zone/page assignment. -/
def assemblePages (c : ℕ) : List PageInM → List PageOutM × ℕ
  | [] => ([], c)
  | p :: ps =>
    let r := assignDims c p.page_number (sortReadingOrder p.dims)
    let rest := assemblePages r.2 ps
    (⟨p.page_number, r.1⟩ :: rest.1, rest.2)

/-- Embeds `DetectionService.detect_dimensions_multipage`
(detection_service.py:102-170).  On success the result is built without an
`error_message` (the dataclass default `None`), so the file service's
warning is not carried over. -/
def detectDimensionsMultipage (fr : FileResultM) : MultiResultM :=
  if fr.success then
    let prs := (assemblePages 1 fr.pages).1
    { success := true
      total_pages := fr.total_pages
      pages := prs
      all_dimensions := (prs.map (fun pr => pr.dimensions)).flatten
      error_message := none }
  else
    { success := false, total_pages := 0, pages := [], all_dimensions := [],
      error_message := fr.error_message }

/-- Embeds `FileService._process_pdf` (file_service.py:281-509) for a readable
`n`-page PDF whose per-page detected dimensions are given by `pageDims`:
renders `min n maxPages` pages numbered from 1, reports `total_pages = n`,
and on overflow puts the cap warning into `error_message` of a successful
result. -/
def processPdfModel (n maxPages : ℕ) (pageDims : ℕ → List DimensionM) :
    FileResultM :=
  let toProc := min n maxPages
  { success := true
    total_pages := n
    pages := (List.range toProc).map (fun i => ⟨i + 1, pageDims (i + 1)⟩)
    error_message :=
      if maxPages < n then
        some ("Processed " ++ toString toProc ++ " of " ++ toString n ++
          " pages (max " ++ toString maxPages ++ ")")
      else none }

/-! `DetectionService._run_gemini` (detection_service.py:236-253) consuming
the dictionaries built by
`VisionService._parse_dimension_with_location_response`
(vision_service.py:202-248). -/

/-- A Python value as far as these dictionaries need. -/
inductive PyVal where
  | str : String → PyVal
  | num : ℚ → PyVal
  | box : QBox → PyVal
deriving DecidableEq

/-- A Python dict as an association list. -/
def PyDict := List (String × PyVal)

/-- Python `d.get(k, default)`. -/
def pyGet (d : PyDict) (k : String) (dflt : PyVal) : PyVal :=
  match d.find? (fun p => p.1 == k) with
  | some p => p.2
  | none => dflt

/-- Numeric read of a `PyVal`; the non-numeric case never occurs where this
is used (Python would propagate the object itself). -/
def PyVal.toQ : PyVal → ℚ
  | .num q => q
  | _ => 0

/-- String read of a `PyVal`. -/
def PyVal.toStr : PyVal → String
  | .str s => s
  | _ => ""

/-- The dictionary appended for each accepted entry by the VLM parser
(vision_service.py:235-243): exactly the keys `value` and `bbox`. -/
def cleanEntry (value : String) (b : QBox) : PyDict :=
  [("value", PyVal.str value), ("bbox", PyVal.box b)]

/-- Embeds `DetectionService._run_gemini` (detection_service.py:241-250): builds
`GeminiDimension(value=d['value'], x_percent=d.get('x', 50),
y_percent=d.get('y', 50), confidence=d.get('confidence', 0.8))`. -/
def runGemini (results : List PyDict) : List GeminiDim :=
  results.map (fun d =>
    { value := (pyGet d ("value") (PyVal.str (""))).toStr
      x_percent := (pyGet d ("x") (PyVal.num 50)).toQ
      y_percent := (pyGet d ("y") (PyVal.num 50)).toQ
      confidence := (pyGet d ("confidence") (PyVal.num (4/5))).toQ })

/-! Concrete inputs used by the counterexample and witness theorems. -/

/-- A raw OCR span reading `45` near the matching target. -/
def cexRawA : OCRDet :=
  { text := "45", xmin := 400, ymin := 400, xmax := 440, ymax := 420,
    confidence := 19/20, sid := SpanId.raw 0 }

/-- A wide raw OCR span reading `x`; the grouper merges it with `cexRawA`
(connector rule), dragging the merged span's center far from the target. -/
def cexRawB : OCRDet :=
  { text := "x", xmin := 460, ymin := 400, xmax := 1000, ymax := 420,
    confidence := 19/20, sid := SpanId.raw 1 }

/-- A VLM entry reading `45°` aimed at `cexRawA`'s center (420, 410). -/
def cexGem : GeminiDim :=
  { value := "45°", x_percent := 42, y_percent := 41, confidence := 9/10 }

/-- A VLM entry whose confidence sits exactly on the claimed 0.75 bound. -/
def cexGemBoundary : GeminiDim :=
  { value := "45°", x_percent := 50, y_percent := 50, confidence := 3/4 }

/-- A VLM entry above the 0.75 bound, used by witnesses. -/
def cexGemHigh : GeminiDim :=
  { value := "45°", x_percent := 50, y_percent := 50, confidence := 4/5 }

/-- A degenerate OCR span (`xmin = xmax`). -/
def cexDegenerate : OCRDet :=
  { text := "45", xmin := 100, ymin := 200, xmax := 100, ymax := 220,
    confidence := 19/20, sid := SpanId.raw 0 }

/-- The 25-page file-service result with no detected dimensions. -/
def c3File : FileResultM := processPdfModel 25 20 (fun _ => [])

/-! Helper lemmas about the stable sort and the id assignment. -/

/-- Membership through `insSorted`. -/
theorem insSorted_mem {α : Type} (lt : α → α → Bool) (x a : α) :
    ∀ l : List α, a ∈ insSorted lt x l ↔ a = x ∨ a ∈ l := by
  intro l
  induction l with
  | nil => simp [insSorted]
  | cons y ys ih =>
    simp only [insSorted]
    split
    all_goals simp only [List.mem_cons, ih]
    all_goals tauto

/-- Membership through `stableSort`. -/
theorem stableSort_mem {α : Type} (lt : α → α → Bool) (a : α) :
    ∀ l : List α, a ∈ stableSort lt l ↔ a ∈ l := by
  intro l
  induction l with
  | nil => simp [stableSort]
  | cons y ys ih =>
    simp only [stableSort, List.foldr] at ih ⊢
    rw [insSorted_mem, ih, List.mem_cons]

/-- Embeds `insSorted` adds one element. -/
theorem insSorted_length {α : Type} (lt : α → α → Bool) (x : α) :
    ∀ l : List α, (insSorted lt x l).length = l.length + 1 := by
  intro l
  induction l with
  | nil => rfl
  | cons y ys ih =>
    simp only [insSorted]
    split <;> simp [ih]

/-- Embeds `stableSort` preserves length. -/
theorem stableSort_length {α : Type} (lt : α → α → Bool) :
    ∀ l : List α, (stableSort lt l).length = l.length := by
  intro l
  induction l with
  | nil => rfl
  | cons y ys ih =>
    simp only [stableSort, List.foldr] at ih ⊢
    rw [insSorted_length, ih, List.length_cons]

/-- Embeds `sortReadingOrder` preserves length. -/
theorem sortReadingOrder_length (dims : List DimensionM) :
    (sortReadingOrder dims).length = dims.length := by
  unfold sortReadingOrder
  split
  · simp_all [List.isEmpty_iff]
  · exact stableSort_length _ dims

/-- The ids produced by `assignDims` starting at `c` are `c, c+1, …`, and
the counter advances by the list length. -/
theorem assignDims_spec (pn : ℕ) :
    ∀ (l : List DimensionM) (c : ℕ),
      (assignDims c pn l).1.map (fun d => d.id) = List.range' c l.length ∧
      (assignDims c pn l).2 = c + l.length := by
  intro l
  induction l with
  | nil => intro c; simp [assignDims]
  | cons d ds ih =>
    intro c
    simp only [assignDims, List.map_cons, List.length_cons, List.range'_succ]
    refine ⟨?_, ?_⟩
    · rw [(ih (c + 1)).1]
    · rw [(ih (c + 1)).2]; omega

/-- The flattened ids produced by the page walk starting at counter `c`
form the contiguous range starting at `c`. -/
theorem assemblePages_spec :
    ∀ (ps : List PageInM) (c : ℕ),
      (((assemblePages c ps).1.map (fun p => p.dimensions)).flatten.map
          (fun d => d.id) =
        List.range' c
          (((assemblePages c ps).1.map (fun p => p.dimensions)).flatten.length)) := by
  intro ps
  induction ps with
  | nil => intro c; simp [assemblePages]
  | cons p rest ih =>
    intro c
    simp only [assemblePages, List.map_cons, List.flatten_cons, List.map_append,
      List.length_append]
    have h1 := assignDims_spec p.page_number (sortReadingOrder p.dims) c
    have hlen : (assignDims c p.page_number (sortReadingOrder p.dims)).1.length =
        (sortReadingOrder p.dims).length := by
      have := congrArg List.length h1.1
      simpa using this
    rw [h1.1, h1.2, ih, hlen, List.range'_append_1, Nat.add_comm]

/-- C10: every box surviving the VLM parser is non-degenerate after the
clamp-and-repair step — `xmin < xmax` and `ymin < ymax` always — while the
repaired `xmax` (resp. `ymax`) is only bounded by `1.05` (resp. `1.03`), not
by the clamp range: the concrete input with `xmin` clamped to 1 and
`xmax ≤ xmin` is repaired to `xmax = 1.05 > 1`. -/
theorem c10_parser_boxes_nondegenerate :
    (∀ x0 y0 x1 y1 : ℚ,
      (clampRepair x0 y0 x1 y1).xmin < (clampRepair x0 y0 x1 y1).xmax ∧
      (clampRepair x0 y0 x1 y1).ymin < (clampRepair x0 y0 x1 y1).ymax ∧
      0 ≤ (clampRepair x0 y0 x1 y1).xmin ∧ (clampRepair x0 y0 x1 y1).xmin ≤ 1 ∧
      0 ≤ (clampRepair x0 y0 x1 y1).ymin ∧ (clampRepair x0 y0 x1 y1).ymin ≤ 1 ∧
      (clampRepair x0 y0 x1 y1).xmax ≤ 21/20 ∧
      (clampRepair x0 y0 x1 y1).ymax ≤ 103/100) ∧
    (clampRepair 1 0 (1/2) 0).xmax = 21/20 ∧ (1 : ℚ) < 21/20 := by
  refine ⟨?_, by with_unfolding_all decide, by norm_num⟩
  intro x0 y0 x1 y1
  have hb : ∀ z : ℚ, 0 ≤ clamp01 z ∧ clamp01 z ≤ 1 := fun z =>
    ⟨le_max_left 0 _, max_le (by norm_num) (min_le_left 1 z)⟩
  simp only [clampRepair]
  split_ifs with h1 h2 <;>
    refine ⟨?_, ?_, (hb x0).1, (hb x0).2, (hb y0).1, (hb y0).2, ?_, ?_⟩ <;>
    first
      | linarith [(hb x0).1, (hb x0).2, (hb x1).1, (hb x1).2]
      | linarith [(hb y0).1, (hb y0).2, (hb y1).1, (hb y1).2]

/-- C5: in every assembly the ids over `all_dimensions` are exactly
`1, 2, …, N` in order (hence the set of ids is `{1..N}`, dense, with no
duplicates), assigned by walking the pages in the order the file service
produced them (ascending page number) and, within each page, the dimensions
in their sorted reading order. -/
theorem c5_ids_dense (fr : FileResultM) :
    (detectDimensionsMultipage fr).all_dimensions.map (fun d => d.id) =
      List.range' 1 (detectDimensionsMultipage fr).all_dimensions.length := by
  unfold detectDimensionsMultipage
  split
  · exact assemblePages_spec fr.pages 1
  · simp

/-- Embeds `pyInt` is the identity on integers. -/
theorem pyInt_intCast (m : ℤ) : pyInt ((m : ℚ)) = m := by
  have hf : ∀ k : ℤ, ratFloor ((k : ℚ)) = k := by
    intro k
    unfold ratFloor
    rw [Rat.num_intCast, Rat.den_intCast]
    exact Int.fdiv_one k
  unfold pyInt
  split
  · exact hf m
  · rw [show -((m : ℚ)) = (((-m : ℤ)) : ℚ) by push_cast; ring, hf]
    omega

/-- A rational with denominator 1 is its numerator. -/
theorem den_one_eq_num (q : ℚ) (h : q.den = 1) : ((q.num : ℚ)) = q := by
  have := Rat.num_div_den q
  rw [h] at this
  simpa using this

/-- Unfolds `pydanticIntOk` into its three propositional components. -/
theorem pydanticIntOk_spec (q : ℚ) (h : pydanticIntOk q = true) :
    q.den = 1 ∧ (0 : ℚ) ≤ q ∧ q ≤ 1000 := by
  simp only [pydanticIntOk, Bool.and_eq_true, beq_iff_eq, decide_eq_true_eq] at h
  exact ⟨h.1.1, h.1.2, h.2⟩

/-- C4 (amended): when Strategies 1-3 all fail for a VLM entry, the matcher
emits the Strategy 4 virtual dimension exactly when the entry's confidence
is STRICTLY greater than 0.75 (the code's guard is `>`, not the claimed
`≥`) and the four synthetic coordinates `target ± (30, 15)` pass pydantic
`BoundingBox` validation — each an integer within 0..1000, as they always
are at the pipeline's actual target (500, 500); outside that range
`BoundingBox(**virtual_box)` raises `ValidationError` instead.  The
emitted dimension carries the VLM's confidence and value, its bounding box
is the synthetic 60-wide by 30-high rectangle centered on the VLM's
predicted location `(10·x_percent, 10·y_percent)` with all four
coordinates within pydantic's 0..1000 bounds, and nothing is added to the
used set.  In particular this covers the empty-OCR page, where all three
strategies trivially fail. -/
theorem c4_strategy4_virtual (rsqrt : ℚ → ℚ) (grouped raw : List OCRDet)
    (avgH : ℚ) (st : MatchState) (i : ℕ) (g : GeminiDim)
    (hsel : selectBest rsqrt grouped raw st.used g avgH i = none)
    (hconf : 3/4 < g.confidence)
    (hval : virtualBoxOk g = true) :
    processGem rsqrt grouped raw avgH st (i, g) =
      { st with matched := st.matched ++ [virtualDim g] } ∧
    (virtualDim g).confidence = g.confidence ∧
    (virtualDim g).value = g.value ∧
    (virtualDim g).bounding_box.xmax - (virtualDim g).bounding_box.xmin = 60 ∧
    (virtualDim g).bounding_box.ymax - (virtualDim g).bounding_box.ymin = 30 ∧
    (((virtualDim g).bounding_box.center_x : ℤ) : ℚ) = 10 * g.x_percent ∧
    (((virtualDim g).bounding_box.center_y : ℤ) : ℚ) = 10 * g.y_percent ∧
    0 ≤ (virtualDim g).bounding_box.xmin ∧ (virtualDim g).bounding_box.xmax ≤ 1000 ∧
    0 ≤ (virtualDim g).bounding_box.ymin ∧ (virtualDim g).bounding_box.ymax ≤ 1000 := by
  simp only [virtualBoxOk, Bool.and_eq_true] at hval
  obtain ⟨⟨⟨p1, p2⟩, p3⟩, p4⟩ := hval
  obtain ⟨hx1d, hx1l, hx1u⟩ := pydanticIntOk_spec _ p1
  obtain ⟨hx2d, hx2l, hx2u⟩ := pydanticIntOk_spec _ p2
  obtain ⟨hy1d, hy1l, hy1u⟩ := pydanticIntOk_spec _ p3
  obtain ⟨hy2d, hy2l, hy2u⟩ := pydanticIntOk_spec _ p4
  have hm : ((g.x_percent * 10 - 30).num : ℚ) = g.x_percent * 10 - 30 :=
    den_one_eq_num _ hx1d
  have hn : ((g.y_percent * 10 - 15).num : ℚ) = g.y_percent * 10 - 15 :=
    den_one_eq_num _ hy1d
  set mx := (g.x_percent * 10 - 30).num with hmx
  set my := (g.y_percent * 10 - 15).num with hmy
  have e1 : g.x_percent * 10 - 30 = ((mx : ℤ) : ℚ) := hm.symm
  have e2 : g.x_percent * 10 + 30 = (((mx + 60 : ℤ)) : ℚ) := by
    push_cast; rw [hm]; ring
  have e3 : g.y_percent * 10 - 15 = ((my : ℤ) : ℚ) := hn.symm
  have e4 : g.y_percent * 10 + 15 = (((my + 30 : ℤ)) : ℚ) := by
    push_cast; rw [hn]; ring
  have hxl : (0 : ℤ) ≤ mx := by exact_mod_cast e1 ▸ hx1l
  have hxu : (mx + 60 : ℤ) ≤ 1000 := by exact_mod_cast e2 ▸ hx2u
  have hyl : (0 : ℤ) ≤ my := by exact_mod_cast e3 ▸ hy1l
  have hyu : (my + 30 : ℤ) ≤ 1000 := by exact_mod_cast e4 ▸ hy2u
  refine ⟨?_, rfl, rfl, ?_⟩
  · unfold processGem
    dsimp only
    rw [hsel]
    simp only [gt_iff_lt, hconf, if_true]
  · simp only [virtualDim, mkBoundingBox, e1, e2, e3, e4, pyInt_intCast,
      BBoxI.center_x, BBoxI.center_y]
    refine ⟨by ring, by ring, ?_, ?_, by exact_mod_cast hxl, by exact_mod_cast hxu,
      by exact_mod_cast hyl, by exact_mod_cast hyu⟩
    · rw [show (mx + (mx + 60)) / 2 = mx + 30 by omega]
      push_cast
      rw [hm]
      ring
    · rw [show (my + (my + 30)) / 2 = my + 15 by omega]
      push_cast
      rw [hn]
      ring

/-- C4 witness: `c4_strategy4_virtual` applied to an empty-OCR page and a
VLM entry of confidence 0.8 at (50, 50): the synthetic box passes pydantic
validation, the virtual 60 by 30 box centered at (500, 500) is emitted and
nothing is consumed. -/
theorem c4_strategy4_virtual_witness :
    processGem ratSqrt [] [] 10 ⟨[], []⟩ (0, cexGemHigh) =
      { used := [], matched := [virtualDim cexGemHigh] } ∧
    (virtualDim cexGemHigh).bounding_box = ⟨485, 470, 515, 530⟩ := by
  have h := c4_strategy4_virtual ratSqrt [] [] 10 ⟨[], []⟩ 0 cexGemHigh
    (by with_unfolding_all decide) (by with_unfolding_all decide)
    (by with_unfolding_all decide)
  exact ⟨by simpa using h.1, by with_unfolding_all decide⟩

/-- C6 (amended): the text-similarity score is 1.0 on equal normal forms,
0.8 on a substring relation, and otherwise difflib's `SequenceMatcher`
ratio — twice the total matched size over the sum of the normalized
lengths — not the LCS-over-longer-length ratio; the score is nonnegative.
(Stated for inputs under difflib's 200-character autojunk threshold, where
the junk machinery is inert.) -/
theorem c6_similarity_formula (v o : String)
    (h : (normalize o).data.length < 200) :
    textSimilarity v o = specTextSimDifflib v o ∧ 0 ≤ textSimilarity v o := by
  constructor
  · simp only [textSimilarity, specTextSimDifflib]
    split_ifs with he hs
    · rfl
    · rfl
    · unfold smRatio
      rw [if_neg ?hz]
      case hz =>
        intro hzero
        have hv : (normalize v).data = [] := by
          have : (normalize v).data.length = 0 := by omega
          exact List.length_eq_zero.mp this
        have ho : (normalize o).data = [] := by
          have : (normalize o).data.length = 0 := by omega
          exact List.length_eq_zero.mp this
        exact he (by
          calc normalize v = ⟨(normalize v).data⟩ := rfl
            _ = ⟨(normalize o).data⟩ := by rw [hv, ho]
            _ = normalize o := rfl)
  · simp only [textSimilarity]
    split_ifs
    · norm_num
    · norm_num
    · unfold smRatio
      dsimp only
      split_ifs
      · norm_num
      · positivity

/-- C6 witness: `c6_similarity_formula` at the concrete pair from the
counterexample. -/
theorem c6_similarity_formula_witness :
    (normalize ("abc")).data.length < 200 ∧
    textSimilarity ("axbxc") ("abc") = specTextSimDifflib ("axbxc") ("abc") ∧
    0 ≤ textSimilarity ("axbxc") ("abc") := by
  refine ⟨by with_unfolding_all decide, ?_, ?_⟩
  · exact (c6_similarity_formula ("axbxc") ("abc") (by with_unfolding_all decide)).1
  · exact (c6_similarity_formula ("axbxc") ("abc") (by with_unfolding_all decide)).2

/-! Machinery for the consumption invariant of `_match_by_location`. -/

/-- A `List.foldl` invariant principle. -/
theorem foldlInv {α β : Type} (f : β → α → β) (P : β → Prop) :
    ∀ (l : List α) (init : β), P init →
      (∀ b a, a ∈ l → P b → P (f b a)) → P (l.foldl f init) := by
  intro l
  induction l with
  | nil => intro init h _; exact h
  | cons x xs ih =>
    intro init h hstep
    exact ih (f init x) (hstep init x (List.mem_cons_self x xs) h)
      (fun b a ha hb => hstep b a (List.mem_cons_of_mem x ha) hb)

/-- Embeds `contains = false` is non-membership (identity tags compare by
decidable equality). -/
theorem contains_false_iff (l : List SpanId) (a : SpanId) :
    l.contains a = false ↔ a ∉ l := by
  show l.elem a = false ↔ a ∉ l
  rw [Bool.eq_false_iff]
  exact not_congr List.elem_iff

/-- A Strategy-1 winner is an unconsumed grouped span. -/
theorem strategy1_some (rsqrt : ℚ → ℚ) (grouped : List OCRDet)
    (used : List SpanId) (gv : String) (tx ty md : ℚ) (o : OCRDet)
    (h : (strategy1 rsqrt grouped used gv tx ty md).1 = some o) :
    o ∈ grouped ∧ used.contains o.sid = false := by
  unfold strategy1 at h
  refine (foldlInv (s1Step rsqrt used gv tx ty md)
    (fun best => ∀ o2, best.1 = some o2 →
      o2 ∈ grouped ∧ used.contains o2.sid = false)
    grouped (none, 0) ?_ ?_) o h
  · intro o2 ho2; cases ho2
  · intro b a ha hb o2 ho2
    unfold s1Step at ho2
    by_cases hc : used.contains a.sid = true
    · rw [if_pos hc] at ho2
      exact hb o2 ho2
    · have hc2 : used.contains a.sid = false := by
        revert hc; cases used.contains a.sid <;> simp
      rw [if_neg hc] at ho2
      dsimp only at ho2
      split_ifs at ho2
      all_goals try exact hb o2 ho2
      all_goals
        simp only [Option.some.injEq] at ho2
      all_goals subst ho2
      all_goals exact ⟨ha, hc2⟩

/-- Every Strategy-2 candidate is an unconsumed grouped span. -/
theorem strategy2Candidates_mem (rsqrt : ℚ → ℚ) (grouped : List OCRDet)
    (used : List SpanId) (gv : String) (tx ty md : ℚ) (c : OCRDet × ℚ × ℚ)
    (h : c ∈ strategy2Candidates rsqrt grouped used gv tx ty md) :
    c.1 ∈ grouped ∧ used.contains c.1.sid = false := by
  unfold strategy2Candidates at h
  refine (foldlInv (s2Step rsqrt used gv tx ty md)
    (fun acc => ∀ c2 ∈ acc, c2.1 ∈ grouped ∧ used.contains c2.1.sid = false)
    grouped [] ?_ ?_) c h
  · intro c2 hc2; cases hc2
  · intro b a ha hb c2 hc2
    unfold s2Step at hc2
    by_cases hc : used.contains a.sid = true
    · rw [if_pos hc] at hc2
      exact hb c2 hc2
    · have hc3 : used.contains a.sid = false := by
        revert hc; cases used.contains a.sid <;> simp
      rw [if_neg hc] at hc2
      dsimp only at hc2
      split_ifs at hc2
      all_goals try exact hb c2 hc2
      all_goals
        rcases List.mem_append.mp hc2 with hold | hnew
      all_goals try exact hb c2 hold
      all_goals
        rcases List.mem_singleton.mp hnew with rfl
      all_goals exact ⟨ha, hc3⟩

/-- The winner after Strategies 1-2 is an unconsumed grouped span. -/
theorem afterS2_some (rsqrt : ℚ → ℚ) (grouped : List OCRDet)
    (used : List SpanId) (gv : String) (tx ty md : ℚ) (o : OCRDet)
    (h : (afterS2 rsqrt grouped used gv tx ty md).1 = some o) :
    o ∈ grouped ∧ used.contains o.sid = false := by
  unfold afterS2 at h
  dsimp only at h
  split_ifs at h with h1
  · cases hm : stableSort candLt (strategy2Candidates rsqrt grouped used gv tx ty md) with
    | nil =>
      rw [hm] at h
      exact strategy1_some rsqrt grouped used gv tx ty md o h
    | cons c cs =>
      rw [hm] at h
      simp only [Option.some.injEq] at h
      subst h
      have hmem : c ∈ stableSort candLt
          (strategy2Candidates rsqrt grouped used gv tx ty md) := by
        rw [hm]; exact List.mem_cons_self c cs
      exact strategy2Candidates_mem rsqrt grouped used gv tx ty md c
        ((stableSort_mem candLt c _).mp hmem)
  · exact strategy1_some rsqrt grouped used gv tx ty md o h

/-- A Strategy-3 combination is the fresh synthetic object. -/
theorem tryCombineNearby_sid (rsqrt : ℚ → ℚ) (gv : String)
    (raw : List OCRDet) (tx ty : ℚ) (used : List SpanId) (md : ℚ)
    (synId : ℕ) (m : OCRDet)
    (h : tryCombineNearby rsqrt gv raw tx ty used md synId = some m) :
    m.sid = SpanId.syn synId := by
  unfold tryCombineNearby at h
  dsimp only at h
  split_ifs at h with h1
  cases hf : firstCombo (((stableSort (fun p q => decide (p.2 < q.2))
      (raw.foldl (nearbyStep rsqrt used tx ty md) [])).take 6).map
        (fun p => p.1)) (normalize gv) with
  | none =>
    rw [hf] at h
    exact Option.noConfusion h
  | some p =>
    rw [hf] at h
    obtain ⟨cs, ctext⟩ := p
    simp only [Option.some.injEq] at h
    subst h
    rfl

/-- Any winner `selectBest` returns is either an unconsumed grouped span or
the fresh Strategy-3 synthetic. -/
theorem selectBest_some (rsqrt : ℚ → ℚ) (grouped raw : List OCRDet)
    (used : List SpanId) (g : GeminiDim) (avgH : ℚ) (synId : ℕ)
    (m : OCRDet) (s : ℚ)
    (h : selectBest rsqrt grouped raw used g avgH synId = some (m, s)) :
    (m ∈ grouped ∧ used.contains m.sid = false) ∨ m.sid = SpanId.syn synId := by
  unfold selectBest at h
  dsimp only at h
  have keepCase : ∀ s2 : Option OCRDet × ℚ,
      (∀ o, s2.1 = some o → o ∈ grouped ∧ used.contains o.sid = false) →
      s2.1.map (fun o => (o, s2.2)) = some (m, s) →
      (m ∈ grouped ∧ used.contains m.sid = false) ∨ m.sid = SpanId.syn synId := by
    intro s2 hs2 hmap
    rcases Option.map_eq_some'.mp hmap with ⟨o, ho, heq⟩
    injection heq with e1 e2
    subst e1
    exact Or.inl (hs2 _ ho)
  have hkeep := fun o ho => afterS2_some rsqrt grouped used g.value
    (g.x_percent * 10) (g.y_percent * 10) (max 150 (avgH * 5)) o ho
  split_ifs at h with h1
  · cases htc : tryCombineNearby rsqrt g.value raw (g.x_percent * 10)
        (g.y_percent * 10) used (max 150 (avgH * 5)) synId with
    | none =>
      rw [htc] at h
      dsimp only at h
      exact keepCase _ hkeep h
    | some m0 =>
      rw [htc] at h
      dsimp only at h
      split_ifs at h with h2
      · simp only [Option.some.injEq, Prod.mk.injEq] at h
        obtain ⟨h3, h4⟩ := h
        subst h3
        exact Or.inr (tryCombineNearby_sid rsqrt g.value raw (g.x_percent * 10)
          (g.y_percent * 10) used (max 150 (avgH * 5)) synId m0 htc)
      · exact keepCase _ hkeep h
  · exact keepCase _ hkeep h

/-- The consumption invariant through one VLM entry: the used list stays
duplicate-free and its synthetic tags stay below the running entry index. -/
theorem processGem_inv (rsqrt : ℚ → ℚ) (grouped raw : List OCRDet) (avgH : ℚ)
    (hg : ∀ o ∈ grouped, o.sid.isSyn = false)
    (k : ℕ) (g : GeminiDim) (st : MatchState)
    (h1 : st.used.Nodup) (h2 : ∀ n, SpanId.syn n ∈ st.used → n < k) :
    (processGem rsqrt grouped raw avgH st (k, g)).used.Nodup ∧
    (∀ n, SpanId.syn n ∈ (processGem rsqrt grouped raw avgH st (k, g)).used →
      n < k + 1) := by
  unfold processGem
  dsimp only
  cases hsel : selectBest rsqrt grouped raw st.used g avgH k with
  | none =>
    split_ifs
    · exact ⟨h1, fun n hn => Nat.lt_succ_of_lt (h2 n hn)⟩
    · exact ⟨h1, fun n hn => Nat.lt_succ_of_lt (h2 n hn)⟩
  | some p =>
    obtain ⟨m, s⟩ := p
    dsimp only
    have hsid := selectBest_some rsqrt grouped raw st.used g avgH k m s hsel
    have hnotmem : m.sid ∉ st.used := by
      rcases hsid with ⟨_, hcf⟩ | hsyn
      · exact (contains_false_iff _ _).mp hcf
      · rw [hsyn]
        intro hmem
        exact absurd (h2 k hmem) (lt_irrefl k)
    constructor
    · have hd : st.used.Disjoint [m.sid] := by
        intro x hx hx2
        rcases List.mem_singleton.mp hx2 with rfl
        exact hnotmem hx
      exact List.nodup_append.mpr ⟨h1, List.nodup_singleton _, hd⟩
    · intro n hn
      rcases List.mem_append.mp hn with hold | hnew
      · exact Nat.lt_succ_of_lt (h2 n hold)
      · have heq := List.mem_singleton.mp hnew
        rcases hsid with ⟨hmem, _⟩ | hsyn
        · have hns := hg m hmem
          rw [← heq] at hns
          simp [SpanId.isSyn] at hns
        · rw [hsyn] at heq
          have : n = k := by injection heq
          omega

/-- The invariant over the enumerated VLM entry list. -/
theorem matchRun_aux (rsqrt : ℚ → ℚ) (grouped raw : List OCRDet) (avgH : ℚ)
    (hg : ∀ o ∈ grouped, o.sid.isSyn = false) :
    ∀ (gems : List GeminiDim) (k : ℕ) (st : MatchState),
      st.used.Nodup → (∀ n, SpanId.syn n ∈ st.used → n < k) →
      ((List.enumFrom k gems).foldl
        (processGem rsqrt grouped raw avgH) st).used.Nodup := by
  intro gems
  induction gems with
  | nil => intro k st h1 _; exact h1
  | cons g gs ih =>
    intro k st h1 h2
    have hp := processGem_inv rsqrt grouped raw avgH hg k g st h1 h2
    exact ih (k + 1) (processGem rsqrt grouped raw avgH st (k, g)) hp.1 hp.2

/-- C2 (amended): within one page the matcher never stores the same span
identity twice in `used_ocr_ids` — the winning grouped span of
Strategies 1-2 is marked used and a used span is never selected again, and
each Strategy-3 match marks one fresh (per-entry) synthetic identity;
Strategy 4 marks nothing.  However only the Strategy-3 combination OBJECT
is consumed: its constituent raw spans are not marked used and remain
available, so a raw OCR span can contribute to more than one fused
dimension (the counterexample).  The hypothesis records that grouped
spans carry real (non-synthetic) object identities, as in the pipeline. -/
theorem c2_winning_spans_consumed_once (rsqrt : ℚ → ℚ)
    (grouped raw : List OCRDet) (gems : List GeminiDim) (avgH : ℚ)
    (hg : ∀ o ∈ grouped, o.sid.isSyn = false) :
    (matchRun rsqrt grouped raw gems avgH).used.Nodup := by
  unfold matchRun
  exact matchRun_aux rsqrt grouped raw avgH hg gems 0 ⟨[], []⟩ List.nodup_nil
    (fun n hn => absurd hn (List.not_mem_nil _))

/-- C2 witness: `c2_winning_spans_consumed_once` on the counterexample's
concrete page. -/
theorem c2_winning_spans_consumed_once_witness :
    (∀ o ∈ groupOcr [cexRawA, cexRawB] 20, o.sid.isSyn = false) ∧
    (matchRun ratSqrt (groupOcr [cexRawA, cexRawB] 20) [cexRawA, cexRawB]
      [cexGem, cexGem] 20).used.Nodup := by
  refine ⟨by with_unfolding_all decide,
    c2_winning_spans_consumed_once ratSqrt _ _ _ _ (by with_unfolding_all decide)⟩

/-- Embeds `pyInt` of a nonnegative value is nonnegative. -/
theorem pyInt_nonneg (q : ℚ) (h : 0 ≤ q) : 0 ≤ pyInt q := by
  unfold pyInt ratFloor
  rw [if_pos h]
  exact Int.fdiv_nonneg (Rat.num_nonneg.mpr h) (by exact_mod_cast Nat.zero_le _)

/-- The grid service's column lookup agrees with the detection service's
column index on every center in range (checked by enumeration). -/
theorem findZoneIndex_col_enum :
    ((List.range 1001).all (fun n =>
      findZoneIndex ((n : ℕ) : ℤ) (calculateEdges 8) ==
        some ((min (pyInt (((n : ℕ) : ℚ) / ((1000 : ℚ) / ((8 : ℕ) : ℚ)))) 7).toNat))) =
      true := by
  with_unfolding_all decide

/-- Same for rows. -/
theorem findZoneIndex_row_enum :
    ((List.range 1001).all (fun n =>
      findZoneIndex ((n : ℕ) : ℤ) (calculateEdges 4) ==
        some ((min (pyInt (((n : ℕ) : ℚ) / ((1000 : ℚ) / ((4 : ℕ) : ℚ)))) 3).toNat))) =
      true := by
  with_unfolding_all decide

/-- C7: for every bounding box with pydantic-validated coordinates (each in
[0, 1000]) the exposed recompute-zone operation, on a grid service
configured with the pipeline's default grid (columns H G F E D C B A, rows
4 3 2 1), returns exactly the zone string `_calculate_zone` assigns in the
pipeline. -/
theorem c7_recompute_zone_agrees (b : BBoxI)
    (hx1 : 0 ≤ b.xmin) (hx2 : b.xmin ≤ 1000)
    (hx3 : 0 ≤ b.xmax) (hx4 : b.xmax ≤ 1000)
    (hy1 : 0 ≤ b.ymin) (hy2 : b.ymin ≤ 1000)
    (hy3 : 0 ≤ b.ymax) (hy4 : b.ymax ≤ 1000) :
    recalculateZone (setGridManually STANDARD_GRID_COLUMNS STANDARD_GRID_ROWS) b =
      some (calculateZone b.center_x b.center_y) := by
  have hcx0 : 0 ≤ b.center_x := by unfold BBoxI.center_x; omega
  have hcx1 : b.center_x ≤ 1000 := by unfold BBoxI.center_x; omega
  have hcy0 : 0 ≤ b.center_y := by unfold BBoxI.center_y; omega
  have hcy1 : b.center_y ≤ 1000 := by unfold BBoxI.center_y; omega
  obtain ⟨nx, hnx⟩ : ∃ n : ℕ, (n : ℤ) = b.center_x :=
    ⟨b.center_x.toNat, Int.toNat_of_nonneg hcx0⟩
  obtain ⟨ny, hny⟩ : ∃ n : ℕ, (n : ℤ) = b.center_y :=
    ⟨b.center_y.toNat, Int.toNat_of_nonneg hcy0⟩
  have hcol : findZoneIndex ((nx : ℕ) : ℤ) (calculateEdges 8) =
      some ((min (pyInt (((nx : ℕ) : ℚ) / ((1000 : ℚ) / ((8 : ℕ) : ℚ)))) 7).toNat) :=
    eq_of_beq (List.all_eq_true.mp findZoneIndex_col_enum nx
      (List.mem_range.mpr (by omega)))
  have hrow : findZoneIndex ((ny : ℕ) : ℤ) (calculateEdges 4) =
      some ((min (pyInt (((ny : ℕ) : ℚ) / ((1000 : ℚ) / ((4 : ℕ) : ℚ)))) 3).toNat) :=
    eq_of_beq (List.all_eq_true.mp findZoneIndex_row_enum ny
      (List.mem_range.mpr (by omega)))
  have hposx : (0 : ℤ) ≤ min (pyInt (((nx : ℕ) : ℚ) / ((1000 : ℚ) / ((8 : ℕ) : ℚ)))) 7 :=
    le_min (pyInt_nonneg _ (by positivity)) (by norm_num)
  have hposy : (0 : ℤ) ≤ min (pyInt (((ny : ℕ) : ℚ) / ((1000 : ℚ) / ((4 : ℕ) : ℚ)))) 3 :=
    le_min (pyInt_nonneg _ (by positivity)) (by norm_num)
  unfold recalculateZone assignZone setGridManually
  rw [← hnx, ← hny]
  dsimp only
  rw [show STANDARD_GRID_COLUMNS.length = 8 from rfl,
    show STANDARD_GRID_ROWS.length = 4 from rfl, hcol, hrow]
  unfold calculateZone pyIndexStr
  dsimp only
  rw [show STANDARD_GRID_COLUMNS.length = 8 from rfl,
    show STANDARD_GRID_ROWS.length = 4 from rfl]
  rw [Int.cast_natCast, Int.cast_natCast]
  rw [show ((8 : ℕ) : ℤ) - 1 = 7 from by norm_num,
    show ((4 : ℕ) : ℤ) - 1 = 3 from by norm_num]
  rw [if_pos hposx, if_pos hposy]

/-- C7 witness: `c7_recompute_zone_agrees` at a concrete box; both sides
evaluate to zone `F3`. -/
theorem c7_recompute_zone_agrees_witness :
    recalculateZone (setGridManually STANDARD_GRID_COLUMNS STANDARD_GRID_ROWS)
      ⟨300, 300, 340, 340⟩ = some (calculateZone 320 320) ∧
    calculateZone 320 320 = "F3" := by
  refine ⟨?_, by with_unfolding_all decide⟩
  have h := c7_recompute_zone_agrees ⟨300, 300, 340, 340⟩
    (by norm_num) (by norm_num) (by norm_num) (by norm_num)
    (by norm_num) (by norm_num) (by norm_num) (by norm_num)
  have hc : (BBoxI.mk 300 300 340 340).center_x = 320 := by with_unfolding_all decide
  have hc2 : (BBoxI.mk 300 300 340 340).center_y = 320 := by with_unfolding_all decide
  rw [hc, hc2] at h
  exact h

/-- C1: the location prior reaching the fusion matcher is NOT the
adapter-reported center scaled by 10 — the parser emits dictionaries with
keys `value` and `bbox` only, so `_run_gemini`'s `d.get('x', 50)` and
`d.get('y', 50)` always return the defaults: every `GeminiDimension` has
`x_percent = y_percent = 50` (and `confidence = 0.8`), making the matching
target the constant (500, 500) whatever center the adapter reported.  The
final conjunct shows the concrete divergence: a parsed entry whose box
center sits at 15 percent across would give target x 150 under the claim,
while the code always uses 500. -/
theorem c1_location_prior_is_constant_default :
    (∀ entries : List (String × QBox),
      ∀ g ∈ runGemini (entries.map (fun e => cleanEntry e.1 e.2)),
        g.x_percent = 50 ∧ g.y_percent = 50 ∧ g.confidence = 4/5) ∧
    runGemini [cleanEntry ("35") ⟨1/10, 1/10, 1/5, 3/20⟩] =
      [{ value := "35", x_percent := 50, y_percent := 50, confidence := 4/5 }] ∧
    (50 : ℚ) * 10 = 500 ∧ (((1/10 : ℚ) + 1/5) / 2 * 100) * 10 = 150 ∧
    (500 : ℚ) ≠ 150 := by
  refine ⟨?_, by with_unfolding_all decide, by norm_num, by norm_num, by norm_num⟩
  intro entries g hg
  simp only [runGemini, List.mem_map] at hg
  obtain ⟨d, ⟨e, _, rfl⟩, rfl⟩ := hg
  exact ⟨rfl, rfl, rfl⟩

/-- C1 witness: the general part of `c1_location_prior_is_constant_default`
applied at a concrete parsed entry. -/
theorem c1_location_prior_is_constant_default_witness :
    ∃ g ∈ runGemini ([("35", (⟨1/10, 1/10, 1/5, 3/20⟩ : QBox))].map
      (fun e => cleanEntry e.1 e.2)), g.x_percent = 50 ∧ g.y_percent = 50 ∧
        g.confidence = 4/5 := by
  refine ⟨{ value := "35", x_percent := 50, y_percent := 50, confidence := 4/5 },
    ?_, ?_⟩
  · with_unfolding_all decide
  · exact c1_location_prior_is_constant_default.1
      [("35", ⟨1/10, 1/10, 1/5, 3/20⟩)] _ (by with_unfolding_all decide)

/-- C2 counterexample: one raw OCR span (`cexRawA`, the only span whose text
matches) supplies the bounding box of two distinct fused dimensions.  The
grouped list is exactly `groupOcr` of the raw list, as in the pipeline:
Strategies 1-2 reject the single merged group (its center is 280 away, past
`max_dist = 150`), Strategy 3 matches the raw `45` span for the first VLM
entry, but marks only its freshly built combined object as used, so the
second identical VLM entry matches the same raw span again — contradicting
"no OCR span contributes to more than one fused dimension". -/
theorem c2_counterexample_raw_span_reused :
    matchByLocation ratSqrt (groupOcr [cexRawA, cexRawB] 20) [cexRawA, cexRawB]
        [cexGem, cexGem] 20 =
      [{ id := 0, value := "45°", zone := none,
         bounding_box := ⟨cexRawA.ymin, cexRawA.xmin, cexRawA.ymax, cexRawA.xmax⟩,
         confidence := 1, page := 1 },
       { id := 0, value := "45°", zone := none,
         bounding_box := ⟨cexRawA.ymin, cexRawA.xmin, cexRawA.ymax, cexRawA.xmax⟩,
         confidence := 1, page := 1 }] := by
  with_unfolding_all decide

/-- C3: the page-cap warning is produced by the file service but dropped by
the orchestrator.  For a 25-page PDF the file-service result succeeds,
processes exactly 20 pages, reports `total_pages = 25` and carries the
warning string referencing the total — but the successful
`detect_dimensions_multipage` result is built without `error_message`
(dataclass default `None`), so the pipeline's successful result carries no
warning, contrary to the claim (and to the expectation recorded at
routes.py:98). -/
theorem c3_page_cap_warning_dropped :
    c3File.success = true ∧
    c3File.pages.length = 20 ∧
    c3File.total_pages = 25 ∧
    c3File.error_message = some ("Processed 20 of 25 pages (max 20)") ∧
    (detectDimensionsMultipage c3File).success = true ∧
    (detectDimensionsMultipage c3File).total_pages = 25 ∧
    (detectDimensionsMultipage c3File).pages.length = 20 ∧
    (detectDimensionsMultipage c3File).error_message = none := by
  with_unfolding_all decide

/-- C4 counterexample: at VLM confidence exactly 0.75 with empty OCR (all
strategies trivially fail) the matcher emits nothing — the code's guard is
`gem.confidence > 0.75`, strict, while the claim requires emission at
`≥ 0.75`. -/
theorem c4_counterexample_threshold_strict :
    matchByLocation ratSqrt [] [] [cexGemBoundary] 10 = [] ∧
    cexGemBoundary.confidence = 3/4 := by
  with_unfolding_all decide

/-- C6 counterexample: on `v = "axbxc"`, `o = "abc"` (their own normal
forms, neither a substring of the other) the code's similarity is difflib's
ratio `2·3/8 = 3/4`, while the claimed LCS-over-longer-length formula gives
`3/5`. -/
theorem c6_counterexample_lcs_mismatch :
    textSimilarity ("axbxc") ("abc") = 3/4 ∧
    specTextSimLcs ("axbxc") ("abc") = 3/5 ∧
    ((3 : ℚ)/4 ≠ 3/5) := by
  with_unfolding_all decide

/-- C8 counterexample: a degenerate OCR span (`xmin = xmax`) is not dropped
by the token grouper — it comes back unchanged as a grouped span. -/
theorem c8_counterexample_degenerate_kept :
    groupOcr [cexDegenerate] 10 = [cexDegenerate] ∧
    cexDegenerate.xmin = cexDegenerate.xmax := by
  with_unfolding_all decide

/-- C8 (corrected): the grouper performs no degeneracy filtering at all —
any single-span input, degenerate or not, is returned unchanged (the span
participates in grouping like any other). -/
theorem c8_no_degenerate_filter (det : OCRDet) (avg : ℚ) :
    groupOcr [det] avg = [det] := rfl

/-- C9: `extract_numeric_value` tries the decimal regex `-?\d+\.?\d*` first
and it matches the leading digits of any text containing a digit, so the
fraction and mixed-fraction branches are dead: `"3/4"` returns `3` (not the
denoted `3/4`) and `"2 1/2"` returns `2` (not `5/2`); plain decimals and
digit-free text behave as claimed. -/
theorem c9_fraction_branches_dead :
    extractNumericValue ("3/4") = some 3 ∧
    extractNumericValue ("2 1/2") = some 2 ∧
    extractNumericValue ("0.250") = some (1/4) ∧
    extractNumericValue ("ABC") = none ∧
    ((3 : ℚ) ≠ 3/4) ∧ ((2 : ℚ) ≠ 5/2) := by
  with_unfolding_all decide

end AutoBalloon
